import Mathlib

/-!
Verification of the menu-items CRUD API (Next.js route handlers over a
Prisma store) against its natural-language specification.

Shallow embedding, translated from the route files:
  * `app/api/menu-items/route.ts`      — collection GET (list all) and POST (create)
  * `app/api/menu-items/[id]/route.ts` — GET one, PUT (update), DELETE
  * `app/search/route.ts`              — GET search

The store (`prisma.menuItem`) is modelled as an insertion-ordered list of
records plus the autoincrement counter.  Each handler takes an extra
`fault : Option String` argument: `none` means every store call succeeds,
`some e` means the first store call that is reached throws an exception
whose internal detail is `e` (connectivity loss etc.); the handler's
try/catch turns such a throw into the handler's fixed 500 response.
JavaScript peculiarities that the routes rely on — `parseInt`, the `!x`
falsiness test — are embedded explicitly below.
-/

/-- A stored record: `model MenuItem { id Int @id @default(autoincrement());
name String; createdAt DateTime @default(now()) }`.  Timestamps are
abstracted to `Nat`. -/
structure MenuItem where
  id : Nat
  name : String
  createdAt : Nat
deriving Repr, DecidableEq

/-- The persistent store: records in insertion order, the autoincrement
counter for the next `id`, and the clock value `now` that a `create`
performed in this state would stamp as `createdAt`. -/
structure Db where
  items : List MenuItem
  nextId : Nat
  now : Nat
deriving Repr, DecidableEq

/-- Response bodies the handlers actually produce (`NextResponse.json(...)`):
an `{ error: ... }` envelope, a single serialized record, a list of records,
a `{ message: ... }` confirmation, or the search envelope
`{ query, results, count }`. -/
inductive RespBody where
  | errorMsg (error : String)
  | item (it : MenuItem)
  | items (xs : List MenuItem)
  | message (msg : String)
  | searchResult (query : String) (results : List MenuItem) (count : Nat)
deriving Repr, DecidableEq

/-- An HTTP response: status code plus JSON body. -/
structure Response where
  status : Nat
  body : RespBody
deriving Repr, DecidableEq

/-- Outcome of `await request.json()` followed by `const { name } = body`:
`malformed` models any throw before validation (unparseable JSON, or a JSON
`null` body whose destructuring throws) — both land in the handler's single
catch block; `parsed name` models a successfully destructured body whose
`name` field is absent (`none`) or a string.  The claims quantify over text
names only, so non-string `name` values are not modelled. -/
inductive Body where
  | malformed
  | parsed (name : Option String)
deriving Repr, DecidableEq

/-- Digit value of a character, `none` when not a decimal digit. -/
def digitVal (c : Char) : Option Nat :=
  if c.isDigit then some (c.toNat - 48) else none

/-- Longest prefix of decimal digits, as digit values. -/
def takeDigits : List Char → List Nat
  | [] => []
  | c :: t =>
    match digitVal c with
    | some d => d :: takeDigits t
    | none => []

/-- Base-10 value of a digit list. -/
def digitsToNat (ds : List Nat) : Nat := ds.foldl (fun a d => a * 10 + d) 0

/-- JavaScript `parseInt(s)` (radix 10): skip leading whitespace, read an
optional sign and then the longest decimal-digit prefix; `none` models the
`NaN` result when no digit follows.  (The `0x` hexadecimal prefix special
case of `parseInt` is not modelled; no claim involves it.) -/
def jsParseInt (s : String) : Option Int :=
  let cs := s.data.dropWhile (fun c => c.isWhitespace)
  let signed : Bool × List Char :=
    match cs with
    | '-' :: t => (true, t)
    | '+' :: t => (false, t)
    | _ => (false, cs)
  match takeDigits signed.2 with
  | [] => none
  | ds => some (if signed.1 then -(digitsToNat ds : Int) else (digitsToNat ds : Int))

/-- JavaScript falsiness of the `name` field (`!name`): a missing field
(`undefined`/`null`) and the empty string are falsy; every other string is
truthy — including `" "` and one-character strings. -/
def jsFalsy : Option String → Bool
  | none => true
  | some s => s.isEmpty

/-- Case-folded code point of a character: ASCII upper-case letters are
mapped to lower case, everything else kept.  (Prisma's `insensitive` mode
folds per the database collation; the ASCII fold suffices here, no claim
involves non-ASCII case pairs.) -/
def lowerVal (c : Char) : Nat :=
  if 65 ≤ c.toNat ∧ c.toNat ≤ 90 then c.toNat + 32 else c.toNat

/-- `prefixOf n h` — `n` is a prefix of `h`. -/
def prefixOf : List Nat → List Nat → Bool
  | [], _ => true
  | _ :: _, [] => false
  | a :: as, b :: bs => (a == b) && prefixOf as bs

/-- `infixOf n h` — `n` occurs as a contiguous run inside `h`. -/
def infixOf (needle : List Nat) : List Nat → Bool
  | [] => needle.isEmpty
  | c :: t => prefixOf needle (c :: t) || infixOf needle t

/-- Prisma `name: { contains: query, mode: 'insensitive' }`:
case-insensitive substring match. -/
def containsCI (hay q : String) : Bool :=
  infixOf (q.data.map lowerVal) (hay.data.map lowerVal)

/-- JavaScript `s.trim()`: drop leading and trailing whitespace.  The route
code never calls it — it appears only in the spec's claimed behaviour, and
is embedded here to compare that behaviour with the code's. -/
def jsTrim (s : String) : String :=
  ⟨((s.data.dropWhile (fun c => c.isWhitespace)).reverse.dropWhile
      (fun c => c.isWhitespace)).reverse⟩

/-- `searchParams.get(k)`: first value bound to `k`, `null` when absent. -/
def getParam (ps : List (String × String)) (k : String) : Option String :=
  (ps.find? (fun p => p.1 == k)).map (fun p => p.2)

namespace MenuItems

/-- `GET /api/menu-items` — `prisma.menuItem.findMany()` with no `orderBy`
clause: the stored records in store (insertion) order, status 200; a store
throw is caught and answered with the fixed 500 envelope. -/
def GET (fault : Option String) (db : Db) : Response :=
  match fault with
  | some _ => ⟨500, .errorMsg "Failed to fetch menu items"⟩
  | none => ⟨200, .items db.items⟩

/-- `POST /api/menu-items` — `await request.json()` (a throw reaches the
catch block: 500), `if (!name)` (400), then `prisma.menuItem.create({ data:
{ name } })` storing the name exactly as received (no trim, no length
check), status 201. -/
def POST (fault : Option String) (db : Db) (body : Body) : Response × Db :=
  match body with
  | .malformed => (⟨500, .errorMsg "Failed to create menu item"⟩, db)
  | .parsed name =>
    if jsFalsy name then (⟨400, .errorMsg "Name is required"⟩, db)
    else
      match fault with
      | some _ => (⟨500, .errorMsg "Failed to create menu item"⟩, db)
      | none =>
        let it : MenuItem := ⟨db.nextId, name.getD "", db.now⟩
        (⟨201, .item it⟩, ⟨db.items ++ [it], db.nextId + 1, db.now⟩)

end MenuItems

namespace MenuItemById

/-- `GET /api/menu-items/[id]` — `parseInt` then `isNaN` check (400 only
when `parseInt` yields `NaN`; `0` and negatives pass), then
`prisma.menuItem.findUnique` (`null` → 404, found → 200). -/
def GET (fault : Option String) (db : Db) (idStr : String) : Response :=
  match jsParseInt idStr with
  | none => ⟨400, .errorMsg "Invalid ID"⟩
  | some id =>
    match fault with
    | some _ => ⟨500, .errorMsg "Failed to fetch menu item"⟩
    | none =>
      match db.items.find? (fun it => (it.id : Int) == id) with
      | none => ⟨404, .errorMsg "Menu item not found"⟩
      | some it => ⟨200, .item it⟩

/-- `PUT /api/menu-items/[id]` — `parseInt`, then `await request.json()`
(a throw reaches the catch block: 500, even for an invalid id), then the
`isNaN` check (400), then `if (!name)` (400), then `prisma.menuItem.update`.
An absent id makes `update` throw (Prisma P2025), which the catch block
answers with the fixed 500 envelope — not 404.  The name is stored exactly
as received. -/
def PUT (fault : Option String) (db : Db) (idStr : String) (body : Body) :
    Response × Db :=
  match body with
  | .malformed => (⟨500, .errorMsg "Failed to update menu item"⟩, db)
  | .parsed name =>
    match jsParseInt idStr with
    | none => (⟨400, .errorMsg "Invalid ID"⟩, db)
    | some id =>
      if jsFalsy name then (⟨400, .errorMsg "Name is required"⟩, db)
      else
        match fault with
        | some _ => (⟨500, .errorMsg "Failed to update menu item"⟩, db)
        | none =>
          match db.items.find? (fun it => (it.id : Int) == id) with
          | none => (⟨500, .errorMsg "Failed to update menu item"⟩, db)
          | some it =>
            (⟨200, .item ⟨it.id, name.getD "", it.createdAt⟩⟩,
             ⟨db.items.map (fun x =>
                if (x.id : Int) == id then ⟨x.id, name.getD "", x.createdAt⟩ else x),
              db.nextId, db.now⟩)

/-- `DELETE /api/menu-items/[id]` — `parseInt` then `isNaN` check (400),
then `prisma.menuItem.delete`.  An absent id makes `delete` throw (Prisma
P2025), which the catch block answers with the fixed 500 envelope — not
404. -/
def DELETE (fault : Option String) (db : Db) (idStr : String) :
    Response × Db :=
  match jsParseInt idStr with
  | none => (⟨400, .errorMsg "Invalid ID"⟩, db)
  | some id =>
    match fault with
    | some _ => (⟨500, .errorMsg "Failed to delete menu item"⟩, db)
    | none =>
      match db.items.find? (fun it => (it.id : Int) == id) with
      | none => (⟨500, .errorMsg "Failed to delete menu item"⟩, db)
      | some _ =>
        (⟨200, .message "Menu item deleted successfully"⟩,
         ⟨db.items.filter (fun it => !((it.id : Int) == id)), db.nextId, db.now⟩)

end MenuItemById

namespace Search

/-- `GET /search?q=...` — reads only the `q` parameter (`limit` and
`offset` are never read); `if (!query)` rejects a missing or empty query
with 400; otherwise `findMany` with the case-insensitive `contains` filter
and the envelope `{ query, results, count }` — no pagination object. -/
def GET (fault : Option String) (db : Db) (ps : List (String × String)) :
    Response :=
  match getParam ps "q" with
  | none => ⟨400, .errorMsg "Search query is required"⟩
  | some query =>
    if query.isEmpty then ⟨400, .errorMsg "Search query is required"⟩
    else
      match fault with
      | some _ => ⟨500, .errorMsg "Failed to search menu items"⟩
      | none =>
        let results := db.items.filter (fun it => containsCI it.name query)
        ⟨200, .searchResult query results results.length⟩

end Search

/-- The spec's expected ordering for listing: `createdAt` descending
(newest first).  Used only to compare the code's behaviour with the
claim. -/
def isSortedByCreatedAtDesc : List MenuItem → Bool
  | [] => true
  | [_] => true
  | a :: b :: t => decide (b.createdAt ≤ a.createdAt) && isSortedByCreatedAtDesc (b :: t)

/-- The status codes the spec allows at the HTTP boundary. -/
def okStatus (s : Nat) : Prop := s = 200 ∨ s = 201 ∨ s = 400 ∨ s = 404 ∨ s = 500

/-- A store holding 101 records whose names all match the query `"p"`. -/
def db101 : Db := ⟨(List.range 101).map (fun i => ⟨i + 1, "p", i⟩), 102, 500⟩

/-- A store whose two records are in creation order: `createdAt` 10 before
`createdAt` 20 — ascending, i.e. oldest first. -/
def dbAsc : Db := ⟨[⟨1, "older", 10⟩, ⟨2, "newer", 20⟩], 3, 99⟩

/-! ## Claims -/

/-- C1 counterexample: deleting id 1 twice — the second DELETE hits an id
that is no longer in the store and answers 500 (the Prisma P2025 throw is
swallowed by the catch-all), not the claimed 404. -/
theorem claim_C1_counterexample :
    (MenuItemById.DELETE none
        (MenuItemById.DELETE none ⟨[⟨1, "Pizza", 0⟩], 2, 9⟩ "1").2 "1").1.status = 500
    ∧ (MenuItemById.DELETE none
        (MenuItemById.DELETE none ⟨[⟨1, "Pizza", 0⟩], 2, 9⟩ "1").2 "1").1.status ≠ 404 := by
  decide

/-- C1 (amended): for an id that parses but is absent from the store,
GET answers 404, while PUT (with a truthy name) and DELETE answer 500 —
the store's not-found throw is caught by the generic handler; in
particular delete of an already-deleted id answers 500, not 404. -/
theorem claim_C1_amended (db : Db) (idStr : String) (n : Int)
    (hid : jsParseInt idStr = some n)
    (habs : db.items.find? (fun it => (it.id : Int) == n) = none) :
    MenuItemById.GET none db idStr = ⟨404, .errorMsg "Menu item not found"⟩
    ∧ MenuItemById.DELETE none db idStr
        = (⟨500, .errorMsg "Failed to delete menu item"⟩, db)
    ∧ ∀ s : String, s.isEmpty = false →
        MenuItemById.PUT none db idStr (.parsed (some s))
          = (⟨500, .errorMsg "Failed to update menu item"⟩, db) := by
  refine ⟨?_, ?_, ?_⟩
  · simp [MenuItemById.GET, hid, habs]
  · simp [MenuItemById.DELETE, hid, habs]
  · intro s hs
    simp [MenuItemById.PUT, hid, habs, jsFalsy, hs]

/-- C1 witness: the amended claim evaluated on the empty store at id "7". -/
theorem claim_C1_amended_witness :
    MenuItemById.GET none ⟨[], 1, 0⟩ "7" = ⟨404, .errorMsg "Menu item not found"⟩
    ∧ MenuItemById.DELETE none ⟨[], 1, 0⟩ "7"
        = (⟨500, .errorMsg "Failed to delete menu item"⟩, ⟨[], 1, 0⟩)
    ∧ MenuItemById.PUT none ⟨[], 1, 0⟩ "7" (.parsed (some "ab"))
        = (⟨500, .errorMsg "Failed to update menu item"⟩, ⟨[], 1, 0⟩) := by
  obtain ⟨h1, h2, h3⟩ := claim_C1_amended ⟨[], 1, 0⟩ "7" 7 (by decide) (by decide)
  exact ⟨h1, h2, h3 "ab" (by decide)⟩

/-- C2 counterexample: a POST whose body throws during `request.json()`
lands in the catch-all and answers 500, not the claimed 400. -/
theorem claim_C2_counterexample :
    (MenuItems.POST none ⟨[], 1, 0⟩ Body.malformed).1.status = 500
    ∧ (MenuItems.POST none ⟨[], 1, 0⟩ Body.malformed).1.status ≠ 400 := by
  decide

/-- C2 (amended): a malformed JSON body on POST always yields the fixed
500 error envelope (the parse throw is only caught by the handler's
catch-all), and the store is never touched. -/
theorem claim_C2_amended (fault : Option String) (db : Db) :
    MenuItems.POST fault db Body.malformed
      = (⟨500, .errorMsg "Failed to create menu item"⟩, db) := rfl

/-- C3 counterexample: the one-character name "a" (trimmed length 1 < 2)
is accepted — POST answers 201 and the record is stored. -/
theorem claim_C3_counterexample :
    MenuItems.POST none ⟨[], 1, 5⟩ (.parsed (some "a"))
      = (⟨201, .item ⟨1, "a", 5⟩⟩, ⟨[⟨1, "a", 5⟩], 2, 5⟩)
    ∧ (⟨[⟨1, "a", 5⟩], 2, 5⟩ : Db) ≠ ⟨[], 1, 5⟩ := by
  decide

/-- C3 (amended): create and update answer 400 with no store mutation
exactly when the name is JS-falsy (missing or the empty string); every
other name — however short, long, or whitespace-padded — passes the only
check (`if (!name)`) and create stores it untrimmed with status 201. -/
theorem claim_C3_amended (db : Db) (name : Option String) (fault : Option String) :
    (jsFalsy name = true →
        MenuItems.POST fault db (.parsed name)
          = (⟨400, .errorMsg "Name is required"⟩, db)
        ∧ ∀ idStr n, jsParseInt idStr = some n →
            MenuItemById.PUT fault db idStr (.parsed name)
              = (⟨400, .errorMsg "Name is required"⟩, db))
    ∧ ∀ s, name = some s → s.isEmpty = false →
        MenuItems.POST none db (.parsed name)
          = (⟨201, .item ⟨db.nextId, s, db.now⟩⟩,
             ⟨db.items ++ [⟨db.nextId, s, db.now⟩], db.nextId + 1, db.now⟩) := by
  constructor
  · intro hf
    constructor
    · simp [MenuItems.POST, hf]
    · intro idStr n hid
      simp [MenuItemById.PUT, hid, hf]
  · rintro s rfl hs
    simp [MenuItems.POST, jsFalsy, hs]

/-- C3 witness: empty name rejected with 400 and no mutation; the
one-character name "a" accepted with 201 and stored. -/
theorem claim_C3_amended_witness :
    MenuItems.POST none ⟨[], 1, 5⟩ (.parsed (some ""))
      = (⟨400, .errorMsg "Name is required"⟩, ⟨[], 1, 5⟩)
    ∧ MenuItems.POST none ⟨[], 1, 5⟩ (.parsed (some "a"))
      = (⟨201, .item ⟨1, "a", 5⟩⟩, ⟨[⟨1, "a", 5⟩], 2, 5⟩) := by
  refine ⟨((claim_C3_amended ⟨[], 1, 5⟩ (some "") none).1 (by decide)).1, ?_⟩
  exact (claim_C3_amended ⟨[], 1, 5⟩ (some "a") none).2 "a" rfl (by decide)

/-- C4 counterexample: creating the valid name " ab " (trimmed length 2)
and fetching it back yields the name stored verbatim, `" ab "`, not the
trimmed `"ab"` the claim requires. -/
theorem claim_C4_counterexample :
    MenuItemById.GET none
        (MenuItems.POST none ⟨[], 1, 7⟩ (.parsed (some " ab "))).2 "1"
      = ⟨200, .item ⟨1, " ab ", 7⟩⟩
    ∧ jsTrim " ab " ≠ " ab " := by
  decide

/-- C4 (amended): create → get-by-id round-trips the name exactly as
received — no trimming happens anywhere on the write path. -/
theorem claim_C4_amended (db : Db) (s : String) (hs : s.isEmpty = false)
    (hfresh : db.items.find? (fun it => (it.id : Int) == (db.nextId : Int)) = none)
    (idStr : String) (hid : jsParseInt idStr = some (db.nextId : Int)) :
    MenuItemById.GET none (MenuItems.POST none db (.parsed (some s))).2 idStr
      = ⟨200, .item ⟨db.nextId, s, db.now⟩⟩ := by
  simp [MenuItems.POST, jsFalsy, hs, MenuItemById.GET, hid, List.find?_append, hfresh]

/-- C4 witness: the amended round-trip evaluated on the empty store with
name "ab". -/
theorem claim_C4_amended_witness :
    MenuItemById.GET none (MenuItems.POST none ⟨[], 1, 7⟩ (.parsed (some "ab"))).2 "1"
      = ⟨200, .item ⟨1, "ab", 7⟩⟩ :=
  claim_C4_amended ⟨[], 1, 7⟩ "ab" (by decide) (by decide) "1" (by decide)

/-- C5 counterexample: a search with `limit=101` (and a 3-character query)
is not rejected — the handler never reads `limit`, performs the store call
and answers 200. -/
theorem claim_C5_counterexample :
    Search.GET none ⟨[⟨1, "Pizza", 0⟩], 2, 9⟩ [("q", "Piz"), ("limit", "101")]
      = ⟨200, .searchResult "Piz" [⟨1, "Pizza", 0⟩] 1⟩
    ∧ (Search.GET none ⟨[⟨1, "Pizza", 0⟩], 2, 9⟩
        [("q", "Piz"), ("limit", "101")]).status ≠ 400 := by
  decide

/-- C5 (amended): only a missing or empty `q` parameter is rejected — with
400, before any store call (the response is independent of store faults);
every other parameter, `limit` and `offset` included, is never read: the
response depends only on the `q` value.  A one-character query is accepted. -/
theorem claim_C5_amended (db : Db) (ps : List (String × String)) (fault : Option String) :
    (getParam ps "q" = none →
        Search.GET fault db ps = ⟨400, .errorMsg "Search query is required"⟩)
    ∧ (getParam ps "q" = some "" →
        Search.GET fault db ps = ⟨400, .errorMsg "Search query is required"⟩)
    ∧ ∀ q, getParam ps "q" = some q →
        Search.GET fault db ps = Search.GET fault db [("q", q)] := by
  refine ⟨fun h => ?_, fun h => ?_, fun q hq => ?_⟩
  · simp only [Search.GET, h]
  · have he : ("" : String).isEmpty = true := by decide
    simp [Search.GET, h, he]
  · have h2 : getParam [("q", q)] "q" = some q := by simp [getParam]
    simp only [Search.GET, hq, h2]

/-- C5 witness: with `q=pizza&limit=101` the response equals the response
with the `limit` parameter absent. -/
theorem claim_C5_amended_witness :
    Search.GET none ⟨[], 1, 0⟩ [("q", "pizza"), ("limit", "101")]
      = Search.GET none ⟨[], 1, 0⟩ [("q", "pizza")] :=
  (claim_C5_amended ⟨[], 1, 0⟩ [("q", "pizza"), ("limit", "101")] none).2.2 "pizza" (by decide)

/-- C6 counterexample: a search matching all 101 stored records answers
with the flat envelope `{ query, results, count }` — `count` is 101, not
the claimed 100, every match is returned, and no pagination object
(`total`/`limit`/`offset`/`hasMore`) exists in the body. -/
theorem claim_C6_counterexample :
    Search.GET none db101 [("q", "p"), ("limit", "100"), ("offset", "0")]
      = ⟨200, .searchResult "p" db101.items 101⟩
    ∧ (101 : Nat) ≠ 100 := by
  decide

/-- C6 (amended): every successful search response is
`{ query, results, count }` where `results` is the full list of
case-insensitive matches and `count` its length — there is no pagination
object and no `hasMore` computation. -/
theorem claim_C6_amended (db : Db) (ps : List (String × String)) (q : String)
    (hq : getParam ps "q" = some q) (hne : q.isEmpty = false) :
    Search.GET none db ps
      = ⟨200, .searchResult q (db.items.filter (fun it => containsCI it.name q))
               (db.items.filter (fun it => containsCI it.name q)).length⟩ := by
  simp [Search.GET, hq, hne]

/-- C6 witness: the amended response shape on the empty store with
query "ab". -/
theorem claim_C6_amended_witness :
    Search.GET none ⟨[], 1, 0⟩ [("q", "ab")] = ⟨200, .searchResult "ab" [] 0⟩ :=
  claim_C6_amended ⟨[], 1, 0⟩ [("q", "ab")] "ab" (by decide) (by decide)

/-- C7 counterexample: the non-positive ids "0" and "-1" are not rejected
with 400 — `parseInt` yields 0 and -1, `isNaN` passes, and the store is
reached: GET of "0" answers 404, DELETE of "-1" answers 500. -/
theorem claim_C7_counterexample :
    (MenuItemById.GET none ⟨[], 1, 0⟩ "0").status = 404
    ∧ (MenuItemById.GET none ⟨[], 1, 0⟩ "0").status ≠ 400
    ∧ (MenuItemById.DELETE none ⟨[], 1, 0⟩ "-1").1.status = 500 := by
  decide

/-- C7 (amended): GET, PUT (with a parsed body) and DELETE answer 400
before any store access exactly when `parseInt` yields `NaN` (no leading
integer); zero and negative ids pass the check and reach the store.  The
400 is independent of store faults, and the store state is returned
unchanged. -/
theorem claim_C7_amended (idStr : String) (h : jsParseInt idStr = none)
    (fault : Option String) (db : Db) (name : Option String) :
    MenuItemById.GET fault db idStr = ⟨400, .errorMsg "Invalid ID"⟩
    ∧ MenuItemById.PUT fault db idStr (.parsed name)
        = (⟨400, .errorMsg "Invalid ID"⟩, db)
    ∧ MenuItemById.DELETE fault db idStr = (⟨400, .errorMsg "Invalid ID"⟩, db) := by
  refine ⟨?_, ?_, ?_⟩
  · simp [MenuItemById.GET, h]
  · simp [MenuItemById.PUT, h]
  · simp [MenuItemById.DELETE, h]

/-- C7 witness: the amended claim evaluated at the non-numeric id "abc"
under a store fault. -/
theorem claim_C7_amended_witness :
    MenuItemById.GET (some "boom") ⟨[], 1, 0⟩ "abc" = ⟨400, .errorMsg "Invalid ID"⟩
    ∧ MenuItemById.PUT (some "boom") ⟨[], 1, 0⟩ "abc" (.parsed (some "ab"))
        = (⟨400, .errorMsg "Invalid ID"⟩, ⟨[], 1, 0⟩)
    ∧ MenuItemById.DELETE (some "boom") ⟨[], 1, 0⟩ "abc"
        = (⟨400, .errorMsg "Invalid ID"⟩, ⟨[], 1, 0⟩) :=
  claim_C7_amended "abc" (by decide) (some "boom") ⟨[], 1, 0⟩ (some "ab")

/-- C8 counterexample: `findMany()` carries no `orderBy` clause — the
handler returns the stored list as is, which for a store in creation order
is `createdAt` ascending, not the claimed descending. -/
theorem claim_C8_counterexample :
    MenuItems.GET none dbAsc = ⟨200, .items dbAsc.items⟩
    ∧ isSortedByCreatedAtDesc dbAsc.items = false := by
  decide

/-- C8 (amended): list-all returns the stored records in store (insertion)
order — a freshly created record appears last, i.e. newest last, the
opposite of the claimed newest-first ordering. -/
theorem claim_C8_amended (db : Db) (s : String) (hs : s.isEmpty = false) :
    MenuItems.GET none (MenuItems.POST none db (.parsed (some s))).2
      = ⟨200, .items (db.items ++ [⟨db.nextId, s, db.now⟩])⟩ := by
  simp [MenuItems.POST, MenuItems.GET, jsFalsy, hs]

/-- C8 witness: after creating "b2" in a store already holding "a1", the
listing ends (not starts) with the new record. -/
theorem claim_C8_amended_witness :
    MenuItems.GET none
        (MenuItems.POST none ⟨[⟨1, "a1", 0⟩], 2, 5⟩ (.parsed (some "b2"))).2
      = ⟨200, .items [⟨1, "a1", 0⟩, ⟨2, "b2", 5⟩]⟩ :=
  claim_C8_amended ⟨[⟨1, "a1", 0⟩], 2, 5⟩ "b2" (by decide)

/-- C9: store-failure responses leak nothing — for every handler the
response (and the returned store state) is identical under any two
internal error details, and the body of every fault response is drawn from
the handler's fixed envelopes, never from the error object. -/
theorem claim_C9 (e₁ e₂ : String) (db : Db) (idStr : String) (body : Body)
    (ps : List (String × String)) :
    (MenuItems.GET (some e₁) db = MenuItems.GET (some e₂) db
      ∧ MenuItems.GET (some e₁) db = ⟨500, .errorMsg "Failed to fetch menu items"⟩)
    ∧ (MenuItems.POST (some e₁) db body = MenuItems.POST (some e₂) db body
      ∧ (MenuItems.POST (some e₁) db body).2 = db
      ∧ ((MenuItems.POST (some e₁) db body).1 = ⟨400, .errorMsg "Name is required"⟩
         ∨ (MenuItems.POST (some e₁) db body).1
             = ⟨500, .errorMsg "Failed to create menu item"⟩))
    ∧ (MenuItemById.GET (some e₁) db idStr = MenuItemById.GET (some e₂) db idStr
      ∧ (MenuItemById.GET (some e₁) db idStr = ⟨400, .errorMsg "Invalid ID"⟩
         ∨ MenuItemById.GET (some e₁) db idStr
             = ⟨500, .errorMsg "Failed to fetch menu item"⟩))
    ∧ (MenuItemById.PUT (some e₁) db idStr body = MenuItemById.PUT (some e₂) db idStr body
      ∧ (MenuItemById.PUT (some e₁) db idStr body).2 = db
      ∧ ((MenuItemById.PUT (some e₁) db idStr body).1 = ⟨400, .errorMsg "Invalid ID"⟩
         ∨ (MenuItemById.PUT (some e₁) db idStr body).1
             = ⟨400, .errorMsg "Name is required"⟩
         ∨ (MenuItemById.PUT (some e₁) db idStr body).1
             = ⟨500, .errorMsg "Failed to update menu item"⟩))
    ∧ (MenuItemById.DELETE (some e₁) db idStr = MenuItemById.DELETE (some e₂) db idStr
      ∧ (MenuItemById.DELETE (some e₁) db idStr).2 = db
      ∧ ((MenuItemById.DELETE (some e₁) db idStr).1 = ⟨400, .errorMsg "Invalid ID"⟩
         ∨ (MenuItemById.DELETE (some e₁) db idStr).1
             = ⟨500, .errorMsg "Failed to delete menu item"⟩))
    ∧ (Search.GET (some e₁) db ps = Search.GET (some e₂) db ps
      ∧ (Search.GET (some e₁) db ps = ⟨400, .errorMsg "Search query is required"⟩
         ∨ Search.GET (some e₁) db ps
             = ⟨500, .errorMsg "Failed to search menu items"⟩)) := by
  refine ⟨⟨rfl, rfl⟩, ?_, ?_, ?_, ?_, ?_⟩
  · cases body with
    | malformed => exact ⟨rfl, rfl, Or.inr rfl⟩
    | parsed name =>
      cases h : jsFalsy name <;> simp [MenuItems.POST, h]
  · rcases h : jsParseInt idStr with _ | n <;> simp [MenuItemById.GET, h]
  · cases body with
    | malformed => exact ⟨rfl, rfl, Or.inr (Or.inr rfl)⟩
    | parsed name =>
      rcases h : jsParseInt idStr with _ | n <;>
        cases hf : jsFalsy name <;> simp [MenuItemById.PUT, h, hf]
  · rcases h : jsParseInt idStr with _ | n <;> simp [MenuItemById.DELETE, h]
  · rcases h : getParam ps "q" with _ | q
    · simp [Search.GET, h]
    · cases hq : q.isEmpty <;> simp [Search.GET, h, hq]

/-- C10: every handler is total at the HTTP boundary — for every input,
body outcome and store fault it returns a response whose status is one of
200, 201, 400, 404, 500; no exception escapes (each handler is a total
function, the try/catch being modelled by the fault match). -/
theorem claim_C10 (fault : Option String) (db : Db) (idStr : String) (body : Body)
    (ps : List (String × String)) :
    okStatus (MenuItems.GET fault db).status
    ∧ okStatus (MenuItems.POST fault db body).1.status
    ∧ okStatus (MenuItemById.GET fault db idStr).status
    ∧ okStatus (MenuItemById.PUT fault db idStr body).1.status
    ∧ okStatus (MenuItemById.DELETE fault db idStr).1.status
    ∧ okStatus (Search.GET fault db ps).status := by
  refine ⟨?_, ?_, ?_, ?_, ?_, ?_⟩
  · unfold MenuItems.GET
    split <;> simp [okStatus]
  · unfold MenuItems.POST
    rcases body with _ | name
    · simp [okStatus]
    · cases h : jsFalsy name <;> cases fault <;> simp [h, okStatus]
  · unfold MenuItemById.GET
    rcases h : jsParseInt idStr with _ | n <;> cases fault <;>
      simp [h, okStatus] <;>
      rcases hf : db.items.find? (fun it => (it.id : Int) == n) with _ | it <;>
      simp [hf, okStatus]
  · unfold MenuItemById.PUT
    rcases body with _ | name
    · simp [okStatus]
    · rcases h : jsParseInt idStr with _ | n <;> cases hf : jsFalsy name <;>
        cases fault <;> simp [h, hf, okStatus] <;>
        rcases hd : db.items.find? (fun it => (it.id : Int) == n) with _ | it <;>
        simp [hd, okStatus]
  · unfold MenuItemById.DELETE
    rcases h : jsParseInt idStr with _ | n <;> cases fault <;>
      simp [h, okStatus] <;>
      rcases hd : db.items.find? (fun it => (it.id : Int) == n) with _ | it <;>
      simp [hd, okStatus]
  · unfold Search.GET
    rcases h : getParam ps "q" with _ | q
    · simp [h, okStatus]
    · cases hq : q.isEmpty <;> cases fault <;> simp [h, hq, okStatus]
